import Mathlib

/-!
Verification of the thumbnail-creator image-transcoding handler
(`image/lambda/test2/thumbnail-creator/main.go`).

Go strings are byte sequences; we model them as Lean `String` / `List Char`,
each `Char` standing for one byte (theorems about the percent-decoder carry
the byte bound `c.toNat < 256` where it matters).
-/

/-! ## Key Codec: `replaceExtension` and `filepath.Ext` (main.go lines 150-156) -/

/-- The scanning loop of Go's `filepath.Ext`: it walks the path backwards
(`rev` is the reversed remainder, `seen` the already-scanned suffix in original
order), stops at a path separator with no extension, and on the first `'.'`
returns the suffix of the path from that dot on. -/
def extScan (seen : List Char) : List Char → List Char
  | [] => []
  | c :: rest =>
    if c = '/' then []
    else if c = '.' then c :: seen
    else extScan (c :: seen) rest

/-- Go `filepath.Ext` on a char-list path (Unix path separator `'/'`):
the suffix beginning at the final dot in the final slash-separated element,
or `[]` when there is no dot there. -/
def filepathExtL (path : List Char) : List Char :=
  extScan [] path.reverse

/-- `replaceExtension` from main.go lines 150-156 on char lists:
`ext := filepath.Ext(key); if ext == "" { return key + newExt };
return key[0:len(key)-len(ext)] + newExt`. -/
def replaceExtensionL (key newExt : List Char) : List Char :=
  let ext := filepathExtL key
  if ext = [] then key ++ newExt
  else key.take (key.length - ext.length) ++ newExt

/-- `replaceExtension` from main.go lines 150-156. -/
def replaceExtension (key newExt : String) : String :=
  ⟨replaceExtensionL key.data newExt.data⟩

/-- If the reversed path has no dot before its first separator
(i.e. the final slash-separated segment of the path has no dot),
the `filepath.Ext` scan finds no extension. -/
theorem extScan_eq_nil_of_no_dot (rev : List Char) :
    ∀ seen : List Char, '.' ∉ rev.takeWhile (fun c => !(c == '/')) →
      extScan seen rev = [] := by
  induction rev with
  | nil => intro seen _; rfl
  | cons c rest ih =>
    intro seen h
    by_cases hc : c = '/'
    · simp [extScan, hc]
    · have hpred : (!(c == '/')) = true := by simp [hc]
      rw [List.takeWhile_cons, hpred] at h
      simp only [if_true] at h
      have hcdot : c ≠ '.' := fun hd => h (by simp [hd])
      have hrest : '.' ∉ rest.takeWhile (fun c => !(c == '/')) := by
        intro hm; exact h (List.mem_cons_of_mem _ hm)
      simp only [extScan, if_neg hc, if_neg hcdot]
      exact ih _ hrest

/-- A key whose final char is a dot: the `filepath.Ext` scan returns
exactly that dot as the extension. -/
theorem filepathExtL_concat_dot (l : List Char) :
    filepathExtL (l ++ ['.']) = ['.'] := by
  simp [filepathExtL, List.reverse_append, extScan]

/-- C6: The target-key derivation function is total by construction
(`replaceExtension : String → String → String` is a Lean function, defined for
every input) and satisfies the four specified input/output pairs:
`a/b/photo.jpg → a/b/photo.avif`, `a/b/photo → a/b/photo.avif`,
`a.b.jpg → a.b.avif`, `noext. → noext.avif`. -/
theorem C6_replaceExtension_cases :
    replaceExtension "a/b/photo.jpg" ".avif" = "a/b/photo.avif" ∧
    replaceExtension "a/b/photo" ".avif" = "a/b/photo.avif" ∧
    replaceExtension "a.b.jpg" ".avif" = "a.b.avif" ∧
    replaceExtension "noext." ".avif" = "noext.avif" := by
  refine ⟨?_, ?_, ?_, ?_⟩ <;> rfl

/-- C7 counterexample: on the key `"noext."` (which ends in a dot) with target
extension `".avif"`, the derivation yields `"noext.avif"`, not
`"noext." ++ ".avif" = "noext..avif"`: the input key's trailing dot is NOT
still present immediately before the appended extension — `filepath.Ext`
reports `"."` as the extension and the replacement removes it. -/
theorem C7_counterexample :
    replaceExtension "noext." ".avif" = "noext.avif" ∧
    replaceExtension "noext." ".avif" ≠ "noext." ++ ".avif" := by
  refine ⟨rfl, ?_⟩; decide

/-- C7 amended: for every key ending in a dot, the derivation treats that
final dot itself as the key's extension, removes it, and appends the target
extension: `replaceExtension (l ++ ".") newExt = l ++ newExt` (so for target
extensions beginning with a dot the result has a single dot there, coming from
the target extension, and the input's trailing dot is gone). -/
theorem C7_amended_trailing_dot (l : List Char) (newExt : String) :
    replaceExtension ⟨l ++ ['.']⟩ newExt = ⟨l⟩ ++ newExt := by
  show String.mk (replaceExtensionL (l ++ ['.']) newExt.data) = _
  rw [replaceExtensionL, filepathExtL_concat_dot]
  have hne : (['.'] : List Char) ≠ [] := by decide
  simp only [if_neg hne, List.length_append, List.length_cons, List.length_nil,
    Nat.add_sub_cancel]
  rw [List.take_left' rfl]
  rfl

/-- C10: derivation looks for an extension only in the final slash-separated
segment: when the final segment (the chars after the last `'/'`, here read off
as the dot-free reversed prefix up to the first `'/'`) contains no dot, the
target extension is appended to the whole key unchanged, even when earlier
segments contain dots. -/
theorem C10_append_when_final_segment_dotless (key : List Char) (newExt : String)
    (h : '.' ∉ key.reverse.takeWhile (fun c => !(c == '/'))) :
    replaceExtension ⟨key⟩ newExt = ⟨key⟩ ++ newExt := by
  show String.mk (replaceExtensionL key newExt.data) = _
  rw [replaceExtensionL, filepathExtL, extScan_eq_nil_of_no_dot _ _ h]
  simp only [if_pos rfl]
  rfl

/-- Witness for C10 at the spec's example: `"a.b/c"` has a dot in an earlier
segment but none in its final segment, and derivation appends. -/
theorem C10_witness :
    replaceExtension "a.b/c" ".avif" = "a.b/c" ++ ".avif" :=
  C10_append_when_final_segment_dotless "a.b/c".data ".avif" (by decide)

/-! ## Key Codec: `url.QueryUnescape` / `url.QueryEscape` (main.go lines 51-55)

Modelled byte-for-byte from Go's `net/url` in query-component mode:
unescaping maps `%hh` to the byte it denotes and `'+'` to a space, and fails
on a malformed `%` sequence; escaping keeps alphanumerics and `-_.~`, turns a
space into `'+'`, and percent-encodes every other byte with upper-case hex. -/

/-- Go `net/url` `unhex`/`ishex`: the value of a hex digit, or `none` for a
non-hex character. -/
def unhex (c : Char) : Option Nat :=
  if '0' ≤ c ∧ c ≤ '9' then some (c.toNat - '0'.toNat)
  else if 'a' ≤ c ∧ c ≤ 'f' then some (c.toNat - 'a'.toNat + 10)
  else if 'A' ≤ c ∧ c ≤ 'F' then some (c.toNat - 'A'.toNat + 10)
  else none

/-- Go `net/url` `upperhex` table: the upper-case hex digit of `n < 16`. -/
def upperhex (n : Nat) : Char :=
  if n < 10 then Char.ofNat ('0'.toNat + n) else Char.ofNat ('A'.toNat + (n - 10))

/-- The error value Go's unescape returns on a malformed escape:
`EscapeError(s)` with message `"invalid URL escape "` plus the quoted offending
chunk (at most three characters starting at the `'%'`). -/
structure UnescapeErr where
  chunk : String
deriving DecidableEq

/-- `url.QueryUnescape` (= `unescape` in query-component mode) on char lists:
`%hh` becomes the byte `hh`, `'+'` becomes a space, anything else passes
through; a `'%'` not followed by two hex digits is an error carrying the
offending chunk truncated to three characters. -/
def queryUnescapeL : List Char → Except UnescapeErr (List Char)
  | [] => .ok []
  | c :: rest =>
    if c = '%' then
      match rest with
      | c1 :: c2 :: rest2 =>
        match unhex c1, unhex c2 with
        | some h1, some h2 =>
          (queryUnescapeL rest2).map (fun t => Char.ofNat (16 * h1 + h2) :: t)
        | _, _ => .error ⟨⟨[c, c1, c2]⟩⟩
      | _ => .error ⟨⟨c :: rest⟩⟩
    else if c = '+' then (queryUnescapeL rest).map (fun t => ' ' :: t)
    else (queryUnescapeL rest).map (fun t => c :: t)

/-- `url.QueryUnescape` on strings. -/
def queryUnescape (s : String) : Except UnescapeErr String :=
  (queryUnescapeL s.data).map String.mk

/-- Unfolding `queryUnescapeL` on a head char that is neither `'%'` nor
`'+'`: the char passes through. -/
theorem queryUnescapeL_cons_ne (c : Char) (rest : List Char) (h1 : c ≠ '%') (h2 : c ≠ '+') :
    queryUnescapeL (c :: rest) = (queryUnescapeL rest).map (fun t => c :: t) := by
  match rest with
  | c1 :: c2 :: rest2 => rw [queryUnescapeL.eq_2, if_neg h1, if_neg h2]
  | [] =>
    rw [queryUnescapeL.eq_3 c [] (by intro _ _ _ h; cases h), if_neg h1, if_neg h2]
  | [c1] =>
    rw [queryUnescapeL.eq_3 c [c1] (by intro _ _ _ h; simp at h), if_neg h1, if_neg h2]

/-- Unfolding `queryUnescapeL` on a leading `'+'`: it decodes to a space. -/
theorem queryUnescapeL_cons_plus (rest : List Char) :
    queryUnescapeL ('+' :: rest) = (queryUnescapeL rest).map (fun t => ' ' :: t) := by
  match rest with
  | c1 :: c2 :: rest2 => rw [queryUnescapeL.eq_2, if_neg (by decide), if_pos rfl]
  | [] =>
    rw [queryUnescapeL.eq_3 _ [] (by intro _ _ _ h; cases h), if_neg (by decide),
      if_pos rfl]
  | [c1] =>
    rw [queryUnescapeL.eq_3 _ [c1] (by intro _ _ _ h; simp at h), if_neg (by decide),
      if_pos rfl]

/-- Unfolding `queryUnescapeL` on a well-formed escape `'%' c1 c2`:
it decodes to the byte the two hex digits denote. -/
theorem queryUnescapeL_pct (c1 c2 : Char) (rest : List Char) (h1v h2v : Nat)
    (e1 : unhex c1 = some h1v) (e2 : unhex c2 = some h2v) :
    queryUnescapeL ('%' :: c1 :: c2 :: rest) =
      (queryUnescapeL rest).map (fun t => Char.ofNat (16 * h1v + h2v) :: t) := by
  rw [queryUnescapeL.eq_2, if_pos rfl]
  simp only [e1, e2]

/-- Go `net/url` `shouldEscape` in query-component mode: every byte is escaped
except alphanumerics and `-`, `_`, `.`, `~`. -/
def shouldEscapeQuery (c : Char) : Bool :=
  !(('a' ≤ c && c ≤ 'z') || ('A' ≤ c && c ≤ 'Z') || ('0' ≤ c && c ≤ '9')
    || c == '-' || c == '_' || c == '.' || c == '~')

/-- `url.QueryEscape` (= `escape` in query-component mode) on char lists:
a space becomes `'+'`, every other byte that must be escaped becomes
`'%'` plus two upper-case hex digits, the rest pass through. -/
def queryEscapeL : List Char → List Char
  | [] => []
  | c :: rest =>
    if c = ' ' then '+' :: queryEscapeL rest
    else if shouldEscapeQuery c then
      '%' :: upperhex (c.toNat / 16) :: upperhex (c.toNat % 16) :: queryEscapeL rest
    else c :: queryEscapeL rest

/-- `url.QueryEscape` on strings. -/
def queryEscape (s : String) : String :=
  ⟨queryEscapeL s.data⟩

/-- Decoding inverts the hex digits produced by escaping. -/
theorem unhex_upperhex : ∀ n < 16, unhex (upperhex n) = some n := by decide

/-- A character that query-escaping leaves unescaped is neither `'%'` nor
`'+'` nor a space. -/
theorem unescaped_char_safe (c : Char) (h : shouldEscapeQuery c = false) :
    c ≠ '%' ∧ c ≠ '+' ∧ c ≠ ' ' := by
  refine ⟨?_, ?_, ?_⟩ <;> rintro rfl <;> revert h <;> decide

/-- Round trip on char lists: unescaping the query-escaped form of a byte
string recovers it exactly. -/
theorem queryUnescapeL_queryEscapeL (s : List Char) (hbytes : ∀ c ∈ s, c.toNat < 256) :
    queryUnescapeL (queryEscapeL s) = .ok s := by
  induction s with
  | nil => rfl
  | cons c rest ih =>
    have hb : c.toNat < 256 := hbytes c (List.mem_cons_self c rest)
    have ihr := ih (fun x hx => hbytes x (List.mem_cons_of_mem _ hx))
    by_cases hsp : c = ' '
    · subst hsp
      rw [queryEscapeL, if_pos rfl, queryUnescapeL_cons_plus, ihr]
      rfl
    · by_cases hesc : shouldEscapeQuery c = true
      · have h1 : unhex (upperhex (c.toNat / 16)) = some (c.toNat / 16) :=
          unhex_upperhex _ (Nat.div_lt_of_lt_mul (by omega))
        have h2 : unhex (upperhex (c.toNat % 16)) = some (c.toNat % 16) :=
          unhex_upperhex _ (Nat.mod_lt _ (by omega))
        have hrec : 16 * (c.toNat / 16) + c.toNat % 16 = c.toNat := by
          omega
        rw [queryEscapeL, if_neg hsp, if_pos hesc,
          queryUnescapeL_pct _ _ _ _ _ h1 h2, ihr, hrec, Char.ofNat_toNat]
        rfl
      · have hsafe := unescaped_char_safe c (by simpa using hesc)
        rw [queryEscapeL, if_neg hsp, if_neg hesc,
          queryUnescapeL_cons_ne _ _ hsafe.1 hsafe.2.1, ihr]
        rfl

/-- C3: key decode round-trip — for every literal storage key (a byte string:
every char is a byte), decoding the percent-encoded form of the key with the
handler's decoder recovers the original key exactly. -/
theorem C3_decode_roundtrip (key : String) (hbytes : ∀ c ∈ key.data, c.toNat < 256) :
    queryUnescape (queryEscape key) = .ok key := by
  show (queryUnescapeL (queryEscapeL key.data)).map String.mk = _
  rw [queryUnescapeL_queryEscapeL key.data hbytes]
  rfl

/-- Witness for C3 on a concrete key exercising a space, `'+'`, `'%'`, `'/'`
and an unescaped alphanumeric tail. -/
theorem C3_witness :
    queryUnescape (queryEscape "my dir/pic+5%q.jpg") = .ok "my dir/pic+5%q.jpg" :=
  C3_decode_roundtrip "my dir/pic+5%q.jpg" (by decide)

/-- C8 counterexample: the key `"a+b"` contains no `%`-escape sequence, yet
the decode step is not a no-op on it — `'+'` decodes to a space, giving
`"a b"`; and the key `"100%"` (a bare `'%'`, also not an escape sequence)
makes the decode step fail instead of returning the key unchanged. -/
theorem C8_counterexample :
    queryUnescape "a+b" = .ok "a b" ∧ "a b" ≠ "a+b" ∧
    queryUnescape "100%" = .error ⟨"%"⟩ := by
  refine ⟨rfl, by decide, rfl⟩

/-- C8 amended: the decode step is a no-op, without error, on every key
containing neither a `'%'` (so in particular no escape sequence and no
malformed escape) nor a `'+'` (which query-decoding would turn into a
space). -/
theorem C8_amended_literal_noop (key : String)
    (hpct : '%' ∉ key.data) (hplus : '+' ∉ key.data) :
    queryUnescape key = .ok key := by
  show (queryUnescapeL key.data).map String.mk = _
  have : ∀ l : List Char, '%' ∉ l → '+' ∉ l → queryUnescapeL l = .ok l := by
    intro l
    induction l with
    | nil => intro _ _; rfl
    | cons c rest ih =>
      intro h1 h2
      have hc1 : c ≠ '%' := fun h => h1 (h ▸ List.mem_cons_self c rest)
      have hc2 : c ≠ '+' := fun h => h2 (h ▸ List.mem_cons_self c rest)
      have hr := ih (fun h => h1 (List.mem_cons_of_mem _ h))
        (fun h => h2 (List.mem_cons_of_mem _ h))
      rw [queryUnescapeL_cons_ne _ _ hc1 hc2, hr]
      rfl
  rw [this key.data hpct hplus]
  rfl

/-- Witness for C8 (amended) on a concrete `%`- and `+`-free key. -/
theorem C8_amended_witness :
    queryUnescape "dir/pic.jpg" = .ok "dir/pic.jpg" :=
  C8_amended_literal_noop "dir/pic.jpg" (by decide) (by decide)

/-! ## Conversion Orchestrator: `HandleRequest` (main.go lines 50-144)

The S3 client and the vips codec are external collaborators; we model them as
an oracle record of functions the handler consumes, and we record the
`PutObject` calls the handler performs so that "zero upload calls" is a
statement about the returned call log. -/

/-- A Go `error` value as the handler observes it: a message (`err.Error()`)
plus what `errors.Unwrap` returns (`some cause` for errors built by
`fmt.Errorf` with `%w`, `none` otherwise). -/
inductive GoErr where
  | mk (message : String) (unwrapped : Option GoErr)

/-- `err.Error()`. -/
def GoErr.message : GoErr → String
  | .mk m _ => m

/-- `errors.Unwrap(err)`. -/
def GoErr.unwrap : GoErr → Option GoErr
  | .mk _ u => u

/-- `fmt.Errorf("<pre>%w", cause)`: the message embeds the cause's text and
unwrapping recovers the cause. -/
def errorfWrap (pre : String) (cause : GoErr) : GoErr :=
  .mk (pre ++ cause.message) (some cause)

/-- `fmt.Errorf("<pre>%s", cause)`: the message embeds the cause's text but
the result wraps nothing — unwrapping recovers no cause. -/
def errorfFmt (pre : String) (cause : GoErr) : GoErr :=
  .mk (pre ++ cause.message) none

/-- The `url.EscapeError` returned by `url.QueryUnescape`, as a Go error value:
message `"invalid URL escape "` plus the quoted offending chunk, wrapping
nothing. (`strconv.Quote` is simplified to plain surrounding quotes; none of
the theorems inspect this text.) -/
def GoErr.ofUnescapeErr (e : UnescapeErr) : GoErr :=
  .mk ("invalid URL escape \"" ++ e.chunk ++ "\"") none

/-- `url.QueryUnescape` returning its error as a Go error value, as the
handler receives it at main.go line 51. -/
def queryUnescapeGo (s : String) : Except GoErr String :=
  match queryUnescapeL s.data with
  | .ok t => .ok ⟨t⟩
  | .error e => .error (GoErr.ofUnescapeErr e)

/-- `event` of `HandleRequest` (main.go lines 23-26). -/
structure S3Event where
  s3Bucket : String
  s3Key : String

/-- `ConversionResult` (main.go lines 29-34); `newKey` and `message` default
to the empty string, matching Go's zero values under `omitempty`. -/
structure ConversionResult where
  status : String
  originalKey : String
  newKey : String := ""
  message : String := ""
deriving DecidableEq

/-- The status string the spec's abstract enum calls `SKIPPED_ALREADY_TARGET`;
the code's literal (main.go line 93) is `"SKIPPED_ALREADY_AVIF"`. -/
def SKIPPED_ALREADY_TARGET : String := "SKIPPED_ALREADY_AVIF"

/-- The status string for a completed conversion (main.go line 140). -/
def CONVERTED : String := "CONVERTED"

/-- `vips.SubsampleMode` (only the value the handler uses, plus the others of
the enum's family collapsed into representative alternatives). -/
inductive SubsampleMode where
  | auto
  | on_mode
  | off_mode
deriving DecidableEq

/-- `vips.HeifCompression`. -/
inductive HeifCompression where
  | hevc
  | avc
  | jpeg
  | av1
deriving DecidableEq

/-- `vips.HeifEncoder`. -/
inductive HeifEncoder where
  | auto
  | aom
  | rav1e
  | svt
  | x265
deriving DecidableEq

/-- `vips.HeifsaveBufferOptions` — the fields the handler sets
(main.go lines 100-108). -/
structure HeifsaveBufferOptions where
  q : Int
  bitdepth : Int
  lossless : Bool
  subsampleMode : SubsampleMode
  compression : HeifCompression
  encoder : HeifEncoder
deriving DecidableEq

/-- The fixed encode profile `options` of main.go lines 100-108:
quality 50, bit depth 10, lossy, automatic chroma subsampling, AV1 codec,
SVT encoder backend. -/
def heifsaveOptions : HeifsaveBufferOptions :=
  { q := 50, bitdepth := 10, lossless := false, subsampleMode := SubsampleMode.auto,
    compression := HeifCompression.av1, encoder := HeifEncoder.svt }

/-- `s3.PutObjectInput` as the handler fills it (main.go lines 125-134):
bucket, key, body bytes, content type, content length, checksum algorithm. -/
structure PutObjectInput where
  bucket : String
  key : String
  body : List Nat
  contentType : String
  contentLength : Int
  checksumAlgorithm : String
deriving DecidableEq

/-- The external collaborators `HandleRequest` consumes, with their
possible-failure signatures: the S3 client (`GetObject`, `PutObject`), the
stream reader (`io.ReadAll`) and the vips codec (`NewImageFromBuffer`,
`GetString`, `HeifsaveBuffer`). `σ` is the opaque type of S3 object body
streams, `ι` the opaque type of decoded vips image handles. -/
structure Collab (σ ι : Type) where
  getObject : String → String → Except GoErr σ
  readAll : σ → Except GoErr (List Nat)
  newImageFromBuffer : List Nat → Except GoErr ι
  getString : ι → String → Except GoErr String
  heifsaveBuffer : ι → HeifsaveBufferOptions → Except GoErr (List Nat)
  putObject : PutObjectInput → Except GoErr Unit

/-- Byte-wise leading-pattern test on char lists (the loop behind Go's
`strings.HasPrefix`). -/
def listHasLead : List Char → List Char → Bool
  | _, [] => true
  | [], _ :: _ => false
  | c :: cs, p :: ps => c == p && listHasLead cs ps

/-- Go `strings.HasPrefix(s, pat)`: `s` begins with `pat`
(main.go line 89 applies it to the `vips-loader` label with `"heifload"`). -/
def stringsHasLead (s pat : String) : Bool :=
  listHasLead s.data pat.data

/-- The tail of `HandleRequest` from the encode step on
(main.go lines 100-143): encode with the fixed profile, derive the target
key, upload. Both the no-metadata path and the not-yet-AVIF path fall through
to this code. Returns the handler result paired with the list of `PutObject`
calls performed. -/
def convertAndUpload {σ ι : Type} (c : Collab σ ι) (bucket srcKey : String)
    (image : ι) : Except GoErr ConversionResult × List PutObjectInput :=
  match c.heifsaveBuffer image heifsaveOptions with
  | .error e => (.error (errorfFmt "failed to encode image to AVIF: vips_error: " e), [])
  | .ok avifBuffer =>
    let newKey := replaceExtension srcKey ".avif"
    let put : PutObjectInput :=
      { bucket := bucket, key := newKey, body := avifBuffer,
        contentType := "image/avif", contentLength := (avifBuffer.length : Int),
        checksumAlgorithm := "SHA256" }
    match c.putObject put with
    | .error e => (.error (errorfWrap "failed to upload AVIF image to S3: " e), [put])
    | .ok _ =>
      (.ok { status := "CONVERTED", originalKey := srcKey, newKey := newKey }, [put])

/-- `HandleRequest` (main.go lines 50-144): decode the key, fetch the object,
read the stream, decode the image, check the `vips-loader` label (a metadata
read failure is only logged), skip when the label has the `heifload` lead, and
otherwise encode and upload. Returns the result (or error) paired with the
list of `PutObject` calls performed. -/
def HandleRequest {σ ι : Type} (c : Collab σ ι) (event : S3Event) :
    Except GoErr ConversionResult × List PutObjectInput :=
  match queryUnescapeGo event.s3Key with
  | .error e => (.error (errorfWrap "failed to decode S3 key: " e), [])
  | .ok srcKey =>
    match c.getObject event.s3Bucket srcKey with
    | .error e => (.error (errorfWrap "failed to get object from S3: " e), [])
    | .ok s3ObjectBody =>
      match c.readAll s3ObjectBody with
      | .error e => (.error (errorfWrap "failed to read image from S3 stream: " e), [])
      | .ok imageBuffer =>
        match c.newImageFromBuffer imageBuffer with
        | .error e =>
          (.error (errorfWrap "failed to process image with vips from buffer: " e), [])
        | .ok image =>
          match c.getString image "vips-loader" with
          | .error _ => convertAndUpload c event.s3Bucket srcKey image
          | .ok format =>
            if stringsHasLead format "heifload" then
              (.ok { status := "SKIPPED_ALREADY_AVIF", originalKey := srcKey,
                     message := "Image is already in AVIF format. Skipping conversion." },
               [])
            else convertAndUpload c event.s3Bucket srcKey image

/-! ## Handler-level claims -/

/-- C1: whenever the detected `vips-loader` label begins with the target
loader's `heifload` lead, the handler returns status `SKIPPED_ALREADY_TARGET`
(the code literal `"SKIPPED_ALREADY_AVIF"`) carrying the original decoded key
and a message, with an empty `newKey`, and the `PutObject` call log is empty:
no object is written or mutated. -/
theorem C1_skip_performs_no_upload {σ ι : Type} (c : Collab σ ι) (ev : S3Event)
    (srcKey : String) (body : σ) (buf : List Nat) (img : ι) (format : String)
    (hkey : queryUnescapeGo ev.s3Key = .ok srcKey)
    (hget : c.getObject ev.s3Bucket srcKey = .ok body)
    (hread : c.readAll body = .ok buf)
    (himg : c.newImageFromBuffer buf = .ok img)
    (hfmt : c.getString img "vips-loader" = .ok format)
    (hlead : stringsHasLead format "heifload" = true) :
    HandleRequest c ev =
      (.ok { status := SKIPPED_ALREADY_TARGET, originalKey := srcKey, newKey := "",
             message := "Image is already in AVIF format. Skipping conversion." },
       []) := by
  simp only [HandleRequest, hkey, hget, hread, himg, hfmt, hlead, if_true,
    SKIPPED_ALREADY_TARGET]

/-- C2: on a successful non-target conversion (key decodes, fetch, read and
image decode succeed, the detected label lacks the `heifload` lead, encode and
upload succeed), the handler returns status `CONVERTED` with `newKey` derived
from the decoded source key by `replaceExtension` with `".avif"`, and exactly
one `PutObject` call is made: same bucket, key `newKey`, body the encoded
buffer, content type `"image/avif"`, content length equal to the encoded
buffer's byte length, SHA-256 checksum algorithm. -/
theorem C2_conversion_success {σ ι : Type} (c : Collab σ ι) (ev : S3Event)
    (srcKey : String) (body : σ) (buf avifBuf : List Nat) (img : ι) (format : String)
    (hkey : queryUnescapeGo ev.s3Key = .ok srcKey)
    (hget : c.getObject ev.s3Bucket srcKey = .ok body)
    (hread : c.readAll body = .ok buf)
    (himg : c.newImageFromBuffer buf = .ok img)
    (hfmt : c.getString img "vips-loader" = .ok format)
    (hlead : stringsHasLead format "heifload" = false)
    (henc : c.heifsaveBuffer img heifsaveOptions = .ok avifBuf)
    (hput : c.putObject
        { bucket := ev.s3Bucket, key := replaceExtension srcKey ".avif",
          body := avifBuf, contentType := "image/avif",
          contentLength := (avifBuf.length : Int),
          checksumAlgorithm := "SHA256" } = .ok ()) :
    HandleRequest c ev =
      (.ok { status := CONVERTED, originalKey := srcKey,
             newKey := replaceExtension srcKey ".avif" },
       [{ bucket := ev.s3Bucket, key := replaceExtension srcKey ".avif",
          body := avifBuf, contentType := "image/avif",
          contentLength := (avifBuf.length : Int),
          checksumAlgorithm := "SHA256" }]) := by
  simp only [HandleRequest, hkey, hget, hread, himg, hfmt, hlead,
    Bool.false_eq_true, if_false, convertAndUpload, henc, hput, CONVERTED]

/-- C5: when format-metadata retrieval fails but decode, encode and upload
succeed, the handler does not abort: it proceeds through encode and upload
and returns status `CONVERTED` — the metadata-read failure is recovered. -/
theorem C5_metadata_read_recovered {σ ι : Type} (c : Collab σ ι) (ev : S3Event)
    (srcKey : String) (body : σ) (buf avifBuf : List Nat) (img : ι) (metaErr : GoErr)
    (hkey : queryUnescapeGo ev.s3Key = .ok srcKey)
    (hget : c.getObject ev.s3Bucket srcKey = .ok body)
    (hread : c.readAll body = .ok buf)
    (himg : c.newImageFromBuffer buf = .ok img)
    (hfmt : c.getString img "vips-loader" = .error metaErr)
    (henc : c.heifsaveBuffer img heifsaveOptions = .ok avifBuf)
    (hput : c.putObject
        { bucket := ev.s3Bucket, key := replaceExtension srcKey ".avif",
          body := avifBuf, contentType := "image/avif",
          contentLength := (avifBuf.length : Int),
          checksumAlgorithm := "SHA256" } = .ok ()) :
    HandleRequest c ev =
      (.ok { status := CONVERTED, originalKey := srcKey,
             newKey := replaceExtension srcKey ".avif" },
       [{ bucket := ev.s3Bucket, key := replaceExtension srcKey ".avif",
          body := avifBuf, contentType := "image/avif",
          contentLength := (avifBuf.length : Int),
          checksumAlgorithm := "SHA256" }]) := by
  simp only [HandleRequest, hkey, hget, hread, himg, hfmt,
    convertAndUpload, henc, hput, CONVERTED]

/-- Keys already ending in `".avif"` are fixpoints of the derivation:
`filepath.Ext` finds exactly `".avif"`, the replacement strips it and appends
`".avif"` again. -/
theorem replaceExtension_avif_fixpoint (l : List Char) :
    replaceExtension ⟨l ++ ".avif".data⟩ ".avif" = ⟨l ++ ".avif".data⟩ := by
  have hd : (".avif").data = ['.', 'a', 'v', 'i', 'f'] := rfl
  show String.mk (replaceExtensionL (l ++ (".avif").data) (".avif").data) = _
  rw [hd, replaceExtensionL]
  have hext : filepathExtL (l ++ ['.', 'a', 'v', 'i', 'f']) = ['.', 'a', 'v', 'i', 'f'] := by
    simp [filepathExtL, List.reverse_append, extScan]
  rw [hext]
  have hne : (['.', 'a', 'v', 'i', 'f'] : List Char) ≠ [] := by decide
  simp only [if_neg hne, List.length_append, List.length_cons, List.length_nil]
  rw [List.take_left' (by omega)]

/-- C9: a decoded source key already ending in `".avif"` derives to itself, so
on a conversion path that does not skip (here: every successful `vips-loader`
read returns a label without the `heifload` lead, which also covers the
metadata-read-failure path), the single `PutObject` call writes to the source
object's own key — the upload overwrites the source object. -/
theorem C9_avif_source_key_overwritten {σ ι : Type} (c : Collab σ ι) (ev : S3Event)
    (l : List Char) (body : σ) (buf avifBuf : List Nat) (img : ι)
    (hkey : queryUnescapeGo ev.s3Key = .ok ⟨l ++ ".avif".data⟩)
    (hget : c.getObject ev.s3Bucket ⟨l ++ ".avif".data⟩ = .ok body)
    (hread : c.readAll body = .ok buf)
    (himg : c.newImageFromBuffer buf = .ok img)
    (hskip : ∀ format, c.getString img "vips-loader" = .ok format →
      stringsHasLead format "heifload" = false)
    (henc : c.heifsaveBuffer img heifsaveOptions = .ok avifBuf)
    (hput : c.putObject
        { bucket := ev.s3Bucket, key := ⟨l ++ ".avif".data⟩, body := avifBuf,
          contentType := "image/avif", contentLength := (avifBuf.length : Int),
          checksumAlgorithm := "SHA256" } = .ok ()) :
    replaceExtension ⟨l ++ ".avif".data⟩ ".avif" = ⟨l ++ ".avif".data⟩ ∧
    HandleRequest c ev =
      (.ok { status := CONVERTED, originalKey := ⟨l ++ ".avif".data⟩,
             newKey := ⟨l ++ ".avif".data⟩ },
       [{ bucket := ev.s3Bucket, key := ⟨l ++ ".avif".data⟩, body := avifBuf,
          contentType := "image/avif", contentLength := (avifBuf.length : Int),
          checksumAlgorithm := "SHA256" }]) := by
  refine ⟨replaceExtension_avif_fixpoint l, ?_⟩
  have hfix : replaceExtension ⟨l ++ ['.', 'a', 'v', 'i', 'f']⟩ ".avif" =
      ⟨l ++ ['.', 'a', 'v', 'i', 'f']⟩ := replaceExtension_avif_fixpoint l
  cases hG : c.getString img "vips-loader" with
  | error e =>
    simp only [HandleRequest, hkey, hget, hread, himg, hG, convertAndUpload, henc,
      hfix, hput, CONVERTED]
  | ok format =>
    have hlead := hskip format hG
    simp only [HandleRequest, hkey, hget, hread, himg, hG, hlead,
      Bool.false_eq_true, if_false, convertAndUpload, henc,
      hfix, hput, CONVERTED]

/-- C4 counterexample input: the collaborator oracle used by the concrete
failure scenarios — every stage succeeds. -/
def okCollab : Collab Unit Unit :=
  { getObject := fun _ _ => .ok (), readAll := fun _ => .ok [1, 2, 3],
    newImageFromBuffer := fun _ => .ok (), getString := fun _ _ => .ok "jpegload",
    heifsaveBuffer := fun _ _ => .ok [7, 7, 7, 7], putObject := fun _ => .ok () }

/-- A concrete invocation event with a `%`- and `+`-free key. -/
def ev0 : S3Event := { s3Bucket := "bkt", s3Key := "dir/pic.jpg" }

/-- Like `okCollab` but the vips encode step fails with error text `"boom"`. -/
def encodeFailCollab : Collab Unit Unit :=
  { okCollab with heifsaveBuffer := fun _ _ => .error (GoErr.mk "boom" none) }

/-- C4 counterexample: with every earlier stage succeeding and the encode
collaborator failing with the error `"boom"`, the handler's returned error has
`unwrapped = none` — the encode stage formats the cause into the message
(`%s`, main.go line 115) instead of wrapping it (`%w`), so the cause is NOT
recoverable by unwrapping, refuting the claim for the encode stage. -/
theorem C4_counterexample :
    (HandleRequest encodeFailCollab ev0).1 =
      .error (GoErr.mk "failed to encode image to AVIF: vips_error: boom" none) ∧
    GoErr.unwrap (GoErr.mk "failed to encode image to AVIF: vips_error: boom" none) =
      none :=
  ⟨rfl, rfl⟩

/-- C4 amended: each failing stage yields an error whose message names the
stage and embeds the collaborator error's text; for the key-decode, fetch,
stream-read, image-decode and upload stages the collaborator error is in
addition wrapped (`errors.Unwrap` recovers it), while for the encode stage the
returned error wraps nothing. Upload failure still records the one `PutObject`
call that was attempted; earlier failures record none. -/
theorem C4_amended_stage_errors {σ ι : Type} (c : Collab σ ι) (ev : S3Event) :
    (∀ e, queryUnescapeGo ev.s3Key = .error e →
      HandleRequest c ev =
        (.error (GoErr.mk ("failed to decode S3 key: " ++ e.message) (some e)), [])) ∧
    (∀ srcKey e, queryUnescapeGo ev.s3Key = .ok srcKey →
      c.getObject ev.s3Bucket srcKey = .error e →
      HandleRequest c ev =
        (.error (GoErr.mk ("failed to get object from S3: " ++ e.message) (some e)),
         [])) ∧
    (∀ srcKey body e, queryUnescapeGo ev.s3Key = .ok srcKey →
      c.getObject ev.s3Bucket srcKey = .ok body →
      c.readAll body = .error e →
      HandleRequest c ev =
        (.error (GoErr.mk ("failed to read image from S3 stream: " ++ e.message)
          (some e)), [])) ∧
    (∀ srcKey body buf e, queryUnescapeGo ev.s3Key = .ok srcKey →
      c.getObject ev.s3Bucket srcKey = .ok body →
      c.readAll body = .ok buf →
      c.newImageFromBuffer buf = .error e →
      HandleRequest c ev =
        (.error (GoErr.mk ("failed to process image with vips from buffer: " ++ e.message)
          (some e)), [])) ∧
    (∀ srcKey body buf img e, queryUnescapeGo ev.s3Key = .ok srcKey →
      c.getObject ev.s3Bucket srcKey = .ok body →
      c.readAll body = .ok buf →
      c.newImageFromBuffer buf = .ok img →
      (∀ format, c.getString img "vips-loader" = .ok format →
        stringsHasLead format "heifload" = false) →
      c.heifsaveBuffer img heifsaveOptions = .error e →
      HandleRequest c ev =
        (.error (GoErr.mk ("failed to encode image to AVIF: vips_error: " ++ e.message)
          none), [])) ∧
    (∀ srcKey body buf img avifBuf e, queryUnescapeGo ev.s3Key = .ok srcKey →
      c.getObject ev.s3Bucket srcKey = .ok body →
      c.readAll body = .ok buf →
      c.newImageFromBuffer buf = .ok img →
      (∀ format, c.getString img "vips-loader" = .ok format →
        stringsHasLead format "heifload" = false) →
      c.heifsaveBuffer img heifsaveOptions = .ok avifBuf →
      c.putObject
        { bucket := ev.s3Bucket, key := replaceExtension srcKey ".avif",
          body := avifBuf, contentType := "image/avif",
          contentLength := (avifBuf.length : Int),
          checksumAlgorithm := "SHA256" } = .error e →
      HandleRequest c ev =
        (.error (GoErr.mk ("failed to upload AVIF image to S3: " ++ e.message) (some e)),
         [{ bucket := ev.s3Bucket, key := replaceExtension srcKey ".avif",
            body := avifBuf, contentType := "image/avif",
            contentLength := (avifBuf.length : Int),
            checksumAlgorithm := "SHA256" }])) := by
  refine ⟨?_, ?_, ?_, ?_, ?_, ?_⟩
  · intro e hkey
    simp only [HandleRequest, hkey, errorfWrap]
  · intro srcKey e hkey hget
    simp only [HandleRequest, hkey, hget, errorfWrap]
  · intro srcKey body e hkey hget hread
    simp only [HandleRequest, hkey, hget, hread, errorfWrap]
  · intro srcKey body buf e hkey hget hread himg
    simp only [HandleRequest, hkey, hget, hread, himg, errorfWrap]
  · intro srcKey body buf img e hkey hget hread himg hskip henc
    cases hG : c.getString img "vips-loader" with
    | error me =>
      simp only [HandleRequest, hkey, hget, hread, himg, hG, convertAndUpload, henc,
        errorfFmt]
    | ok format =>
      have hlead := hskip format hG
      simp only [HandleRequest, hkey, hget, hread, himg, hG, hlead,
        Bool.false_eq_true, if_false, convertAndUpload, henc, errorfFmt]
  · intro srcKey body buf img avifBuf e hkey hget hread himg hskip henc hput
    cases hG : c.getString img "vips-loader" with
    | error me =>
      simp only [HandleRequest, hkey, hget, hread, himg, hG, convertAndUpload, henc,
        hput, errorfWrap]
    | ok format =>
      have hlead := hskip format hG
      simp only [HandleRequest, hkey, hget, hread, himg, hG, hlead,
        Bool.false_eq_true, if_false, convertAndUpload, henc, hput, errorfWrap]

/-- Like `okCollab` but the detected loader label carries the `heifload`
lead, as vips reports for an AVIF/HEIF source. -/
def skipCollab : Collab Unit Unit :=
  { okCollab with getString := fun _ _ => .ok "heifload_buffer" }

/-- Like `okCollab` but reading the `vips-loader` metadata fails. -/
def metaFailCollab : Collab Unit Unit :=
  { okCollab with getString := fun _ _ => .error (GoErr.mk "metadata boom" none) }

/-- Like `okCollab` but fetching the object from S3 fails. -/
def getFailCollab : Collab Unit Unit :=
  { okCollab with getObject := fun _ _ => .error (GoErr.mk "no such key" none) }

/-- Witness for C1: a concrete already-AVIF invocation is skipped with no
`PutObject` call. -/
theorem C1_witness :
    HandleRequest skipCollab ev0 =
      (.ok { status := SKIPPED_ALREADY_TARGET, originalKey := "dir/pic.jpg", newKey := "",
             message := "Image is already in AVIF format. Skipping conversion." },
       []) :=
  C1_skip_performs_no_upload skipCollab ev0 "dir/pic.jpg" () [1, 2, 3] () "heifload_buffer"
    rfl rfl rfl rfl rfl rfl

/-- Witness for C2: a concrete JPEG invocation converts and uploads the
four-byte encoded buffer under the derived key. -/
theorem C2_witness :
    HandleRequest okCollab ev0 =
      (.ok { status := CONVERTED, originalKey := "dir/pic.jpg", newKey := "dir/pic.avif" },
       [{ bucket := "bkt", key := "dir/pic.avif", body := [7, 7, 7, 7],
          contentType := "image/avif", contentLength := 4,
          checksumAlgorithm := "SHA256" }]) :=
  C2_conversion_success okCollab ev0 "dir/pic.jpg" () [1, 2, 3] [7, 7, 7, 7] () "jpegload"
    rfl rfl rfl rfl rfl rfl rfl rfl

/-- Witness for C5: with metadata retrieval failing and everything else
succeeding, the concrete invocation still converts. -/
theorem C5_witness :
    HandleRequest metaFailCollab ev0 =
      (.ok { status := CONVERTED, originalKey := "dir/pic.jpg", newKey := "dir/pic.avif" },
       [{ bucket := "bkt", key := "dir/pic.avif", body := [7, 7, 7, 7],
          contentType := "image/avif", contentLength := 4,
          checksumAlgorithm := "SHA256" }]) :=
  C5_metadata_read_recovered metaFailCollab ev0 "dir/pic.jpg" () [1, 2, 3] [7, 7, 7, 7] ()
    (GoErr.mk "metadata boom" none) rfl rfl rfl rfl rfl rfl rfl

/-- A concrete invocation event whose key already ends in `".avif"`. -/
def ev1 : S3Event := { s3Bucket := "bkt", s3Key := "photo.avif" }

/-- Witness for C9: converting a source already keyed `"photo.avif"` uploads
to `"photo.avif"` itself. -/
theorem C9_witness :
    replaceExtension "photo.avif" ".avif" = "photo.avif" ∧
    HandleRequest okCollab ev1 =
      (.ok { status := CONVERTED, originalKey := "photo.avif", newKey := "photo.avif" },
       [{ bucket := "bkt", key := "photo.avif", body := [7, 7, 7, 7],
          contentType := "image/avif", contentLength := 4,
          checksumAlgorithm := "SHA256" }]) :=
  C9_avif_source_key_overwritten okCollab ev1 "photo".data () [1, 2, 3] [7, 7, 7, 7] ()
    rfl rfl rfl rfl
    (fun format h => by injection h with h; subst h; rfl)
    rfl rfl

/-- Witness for C4 (amended), at the fetch stage: the concrete handler error
names the fetch stage and wraps the collaborator error `"no such key"`. -/
theorem C4_amended_witness :
    HandleRequest getFailCollab ev0 =
      (.error (GoErr.mk ("failed to get object from S3: " ++ "no such key")
        (some (GoErr.mk "no such key" none))), []) :=
  (C4_amended_stage_errors getFailCollab ev0).2.1 "dir/pic.jpg"
    (GoErr.mk "no such key" none) rfl rfl
